import Mathlib

/-!
Shallow embedding of src/src/cuda/TwoStepNPTGPU.cu, the HOOMD-blue GPU NPT
(Nose-Hoover) integrator: the step-one, box-rescale and step-two kernels, the
two partial-sum reduction kernels, and their five launch drivers.

Modelling conventions:
* CUDA float scalars are embedded as exact rationals with field arithmetic.
* The C library function exp, called only inside the drivers to build the
  scaling factors, is an uninterpreted parameter named expf of each driver.
* rintf is embedded as round-to-nearest with ties to even (rne below).
* A kernel launch of a grid of blocks is one pure state transformer: every
  thread computes from the pre-launch snapshot (the texture reads all go to
  launch-time state) and every in-range write lands; the number of launched
  threads (gridDim * blockDim) is an explicit argument of each kernel model.
* The CUDA runtime outcomes that the drivers consult - the result of each
  cudaBindTexture call, the launch-configuration result, the deferred
  asynchronous fault visible at cudaThreadSynchronize, and the process-wide
  g_gpu_error_checking flag - are collected in one CudaEnv record.
-/

/-- CUDA float4, with each float modelled as an exact rational. -/
structure float4 where
  x : ℚ
  y : ℚ
  z : ℚ
  w : ℚ
deriving DecidableEq

/-- CUDA int4, used for the periodic image counters. -/
structure int4 where
  x : ℤ
  y : ℤ
  z : ℤ
  w : ℤ
deriving DecidableEq

/-- gpu_boxsize: three box edge lengths and their stored reciprocals. -/
structure gpu_boxsize where
  Lx : ℚ
  Ly : ℚ
  Lz : ℚ
  Lxinv : ℚ
  Lyinv : ℚ
  Lzinv : ℚ
deriving DecidableEq

/-- gpu_pdata_arrays: the device-resident particle arrays, indexed by particle
id, together with the allocated size N and the live count local_num. -/
structure gpu_pdata_arrays where
  pos : ℕ → float4
  vel : ℕ → float4
  accel : ℕ → float4
  mass : ℕ → ℚ
  image : ℕ → int4
  N : ℕ
  local_num : ℕ

/-- The CUDA runtime status codes the embedding distinguishes. -/
inductive cudaError where
  | success
  | invalidTexture
  | invalidConfiguration
  | launchFailure
deriving DecidableEq

/-- Outcomes of the CUDA runtime calls a driver makes, fixed per launch:
the result of binding each texture, the launch-configuration result, the
deferred asynchronous fault observable after cudaThreadSynchronize, and the
process-wide g_gpu_error_checking flag from gpu_settings. -/
structure CudaEnv where
  bindPos : cudaError
  bindVel : cudaError
  bindAccel : cudaError
  bindMass : cudaError
  bindImage : cudaError
  bindNetForce : cudaError
  launchResult : cudaError
  asyncResult : cudaError
  g_gpu_error_checking : Bool
deriving DecidableEq

/-- What a driver call produced: the returned status, whether the kernel
launch statement was reached, and the device state afterwards. -/
structure DriverOutcome (α : Type) where
  status : cudaError
  launched : Bool
  state : α

/-- The sticky error cudaGetLastError reports after cudaThreadSynchronize:
the launch-configuration failure if there was one, else the deferred fault. -/
def CudaEnv.postSyncError (env : CudaEnv) : cudaError :=
  if env.launchResult ≠ cudaError.success then env.launchResult else env.asyncResult

/-- The common tail of every driver (lines 184-192, 291-299, 394-402, 490-498,
601-609 of TwoStepNPTGPU.cu): launch the kernel, then return cudaSuccess when
g_gpu_error_checking is off, else synchronize and return cudaGetLastError.
The kernel mutates state only when the launch itself succeeded. -/
def launchEpilogue {α : Type} (env : CudaEnv) (mutated orig : α) : DriverOutcome α :=
  if env.g_gpu_error_checking then
    ⟨env.postSyncError, true,
      if env.launchResult = cudaError.success then mutated else orig⟩
  else
    ⟨cudaError.success, true,
      if env.launchResult = cudaError.success then mutated else orig⟩

/-- rintf: round to nearest, ties to even. -/
def rne (q : ℚ) : ℤ :=
  let f := ⌊q⌋
  let r := q - (f : ℚ)
  if r < 1/2 then f
  else if 1/2 < r then f + 1
  else if Even f then f else f + 1

/-- True when some launched thread g (g < num_threads, the guard
g < group_size passed) has d_group_members[g] = i, i.e. particle i is written
by the group-scoped kernels. -/
def writesParticle (d_group_members : ℕ → ℕ) (group_size num_threads i : ℕ) : Bool :=
  (List.range num_threads).any fun g =>
    decide (g < group_size) && decide (d_group_members g = i)

/-- gpu_npt_step_one_kernel, lines 85-138: for each thread with
group_idx < group_size, with idx = d_group_members[group_idx], update each
velocity component as v*exp_v_fac^2 + (1/2)*deltaT*exp_v_fac*a, then each
position component as p + v*(1/exp_r_fac)*deltaT with the updated v, and
write position and velocity back; the w slots are copied through. -/
def gpu_npt_step_one_kernel (pdata : gpu_pdata_arrays) (d_group_members : ℕ → ℕ)
    (group_size : ℕ) (exp_v_fac exp_r_fac deltaT : ℚ) (num_threads : ℕ) :
    gpu_pdata_arrays :=
  let exp_r_fac_inv := 1 / exp_r_fac
  let newVel : ℕ → float4 := fun idx =>
    let vel := pdata.vel idx
    let accel := pdata.accel idx
    ⟨vel.x * exp_v_fac * exp_v_fac + (1/2) * deltaT * exp_v_fac * accel.x,
     vel.y * exp_v_fac * exp_v_fac + (1/2) * deltaT * exp_v_fac * accel.y,
     vel.z * exp_v_fac * exp_v_fac + (1/2) * deltaT * exp_v_fac * accel.z,
     vel.w⟩
  let newPos : ℕ → float4 := fun idx =>
    let pos := pdata.pos idx
    ⟨pos.x + (newVel idx).x * exp_r_fac_inv * deltaT,
     pos.y + (newVel idx).y * exp_r_fac_inv * deltaT,
     pos.z + (newVel idx).z * exp_r_fac_inv * deltaT,
     pos.w⟩
  { pdata with
    pos := fun i =>
      if writesParticle d_group_members group_size num_threads i then newPos i
      else pdata.pos i,
    vel := fun i =>
      if writesParticle d_group_members group_size num_threads i then newVel i
      else pdata.vel i }

/-- gpu_npt_step_one, lines 151-193: bind the pos, vel and accel textures in
that order, returning the first failure; compute
exp_v_fac = exp(-1/4*(Eta+Xi)*deltaT) and exp_r_fac = exp(1/2*Eta*deltaT);
launch the kernel on num_blocks blocks of block_size threads. -/
def gpu_npt_step_one (expf : ℚ → ℚ) (env : CudaEnv) (pdata : gpu_pdata_arrays)
    (d_group_members : ℕ → ℕ) (group_size block_size num_blocks : ℕ)
    (Xi Eta deltaT : ℚ) : DriverOutcome gpu_pdata_arrays :=
  if env.bindPos ≠ cudaError.success then ⟨env.bindPos, false, pdata⟩
  else if env.bindVel ≠ cudaError.success then ⟨env.bindVel, false, pdata⟩
  else if env.bindAccel ≠ cudaError.success then ⟨env.bindAccel, false, pdata⟩
  else
    let exp_v_fac := expf (-(1/4) * (Eta + Xi) * deltaT)
    let exp_r_fac := expf ((1/2) * Eta * deltaT)
    launchEpilogue env
      (gpu_npt_step_one_kernel pdata d_group_members group_size exp_v_fac
        exp_r_fac deltaT (num_blocks * block_size))
      pdata

/-- The per-particle body of gpu_npt_boxscale_kernel, lines 215-246: scale all
four position components by box_len_scale, then wrap each axis with
rintf(p * Linv), subtracting L*shift from the position and adding the integer
shift to the image counter. -/
def boxscale_thread (pos : float4) (image : int4) (box : gpu_boxsize)
    (box_len_scale : ℚ) : float4 × int4 :=
  let px := pos.x * box_len_scale
  let py := pos.y * box_len_scale
  let pz := pos.z * box_len_scale
  let pw := pos.w * box_len_scale
  let x_shift := rne (px * box.Lxinv)
  let y_shift := rne (py * box.Lyinv)
  let z_shift := rne (pz * box.Lzinv)
  (⟨px - box.Lx * (x_shift : ℚ),
    py - box.Ly * (y_shift : ℚ),
    pz - box.Lz * (z_shift : ℚ),
    pw⟩,
   ⟨image.x + x_shift, image.y + y_shift, image.z + z_shift, image.w⟩)

/-- gpu_npt_boxscale_kernel, lines 203-248: every thread with
idx < pdata.local_num (group membership is irrelevant here) rescales and wraps
particle idx, writing position and image back. -/
def gpu_npt_boxscale_kernel (pdata : gpu_pdata_arrays) (box : gpu_boxsize)
    (box_len_scale : ℚ) (num_threads : ℕ) : gpu_pdata_arrays :=
  { pdata with
    pos := fun idx =>
      if idx < num_threads ∧ idx < pdata.local_num then
        (boxscale_thread (pdata.pos idx) (pdata.image idx) box box_len_scale).1
      else pdata.pos idx,
    image := fun idx =>
      if idx < num_threads ∧ idx < pdata.local_num then
        (boxscale_thread (pdata.pos idx) (pdata.image idx) box box_len_scale).2
      else pdata.image idx }

/-- The grid size computed on line 265: (local_num / block_size) + 1 blocks. -/
def gpu_npt_boxscale_grid (local_num block_size : ℕ) : ℕ :=
  local_num / block_size + 1

/-- gpu_npt_boxscale, lines 258-300: compute box_len_scale = exp(Eta*deltaT),
scale the box edge lengths by it and recompute the stored reciprocals, bind
the pos and image textures (first failure returned), and launch the kernel on
(local_num / block_size + 1) blocks of block_size threads. -/
def gpu_npt_boxscale (expf : ℚ → ℚ) (env : CudaEnv) (pdata : gpu_pdata_arrays)
    (box : gpu_boxsize) (block_size : ℕ) (Eta deltaT : ℚ) :
    DriverOutcome gpu_pdata_arrays :=
  let box_len_scale := expf (Eta * deltaT)
  let scaled_box : gpu_boxsize :=
    { Lx := box.Lx * box_len_scale
      Ly := box.Ly * box_len_scale
      Lz := box.Lz * box_len_scale
      Lxinv := 1 / (box.Lx * box_len_scale)
      Lyinv := 1 / (box.Ly * box_len_scale)
      Lzinv := 1 / (box.Lz * box_len_scale) }
  if env.bindPos ≠ cudaError.success then ⟨env.bindPos, false, pdata⟩
  else if env.bindImage ≠ cudaError.success then ⟨env.bindImage, false, pdata⟩
  else
    launchEpilogue env
      (gpu_npt_boxscale_kernel pdata scaled_box box_len_scale
        (gpu_npt_boxscale_grid pdata.local_num block_size * block_size))
      pdata

/-- The per-particle body of gpu_npt_step_two_kernel, lines 324-345: read the
net force, divide its x, y, z components by the mass to get the acceleration,
update each velocity component as v*exp_v_fac^2 + (1/2)*deltaT*exp_v_fac*a,
and return the (acceleration, velocity) pair that is written back. -/
def gpu_npt_step_two_thread (net_force : float4) (mass : ℚ) (vel : float4)
    (exp_v_fac deltaT : ℚ) : float4 × float4 :=
  let accel : float4 := ⟨net_force.x / mass, net_force.y / mass,
    net_force.z / mass, net_force.w⟩
  (accel,
   ⟨vel.x * exp_v_fac * exp_v_fac + (1/2) * deltaT * exp_v_fac * accel.x,
    vel.y * exp_v_fac * exp_v_fac + (1/2) * deltaT * exp_v_fac * accel.y,
    vel.z * exp_v_fac * exp_v_fac + (1/2) * deltaT * exp_v_fac * accel.z,
    vel.w⟩)

/-- A zero-guarded variant of gpu_npt_step_two_thread: the source divides by
the mass with no check, so this embedding refuses a zero mass explicitly. -/
def gpu_npt_step_two_thread_checked (net_force : float4) (mass : ℚ)
    (vel : float4) (exp_v_fac deltaT : ℚ) : Option (float4 × float4) :=
  if mass = 0 then none
  else some (gpu_npt_step_two_thread net_force mass vel exp_v_fac deltaT)

/-- gpu_npt_step_two_kernel, lines 312-347: each thread with
group_idx < group_size recomputes the acceleration of idx =
d_group_members[group_idx] from the net force and updates its velocity,
writing both back; positions are untouched. -/
def gpu_npt_step_two_kernel (pdata : gpu_pdata_arrays) (d_group_members : ℕ → ℕ)
    (group_size : ℕ) (d_net_force : ℕ → float4) (exp_v_fac deltaT : ℚ)
    (num_threads : ℕ) : gpu_pdata_arrays :=
  { pdata with
    vel := fun i =>
      if writesParticle d_group_members group_size num_threads i then
        (gpu_npt_step_two_thread (d_net_force i) (pdata.mass i) (pdata.vel i)
          exp_v_fac deltaT).2
      else pdata.vel i,
    accel := fun i =>
      if writesParticle d_group_members group_size num_threads i then
        (gpu_npt_step_two_thread (d_net_force i) (pdata.mass i) (pdata.vel i)
          exp_v_fac deltaT).1
      else pdata.accel i }

/-- gpu_npt_step_two, lines 361-403: bind the vel, mass and net-force textures
in that order (first failure returned), recompute
exp_v_fac = exp(-1/4*(Eta+Xi)*deltaT), and launch the kernel. -/
def gpu_npt_step_two (expf : ℚ → ℚ) (env : CudaEnv) (pdata : gpu_pdata_arrays)
    (d_group_members : ℕ → ℕ) (group_size : ℕ) (d_net_force : ℕ → float4)
    (block_size num_blocks : ℕ) (Xi Eta deltaT : ℚ) :
    DriverOutcome gpu_pdata_arrays :=
  if env.bindVel ≠ cudaError.success then ⟨env.bindVel, false, pdata⟩
  else if env.bindMass ≠ cudaError.success then ⟨env.bindMass, false, pdata⟩
  else if env.bindNetForce ≠ cudaError.success then ⟨env.bindNetForce, false, pdata⟩
  else
    let exp_v_fac := expf (-(1/4) * (Eta + Xi) * deltaT)
    launchEpilogue env
      (gpu_npt_step_two_kernel pdata d_group_members group_size d_net_force
        exp_v_fac deltaT (num_blocks * block_size))
      pdata

/-- One halving step of the in-block tree reduction (lines 444-445, 534-535,
562-563): every thread with threadIdx < offs adds slot threadIdx + offs into
its own slot; all other slots are unchanged. -/
def reduceHalve (s : ℕ → ℚ) (offs : ℕ) : ℕ → ℚ :=
  fun tid => if tid < offs then s tid + s (tid + offs) else s tid

/-- The while loop of the reductions, fuel-indexed: with offs starting at
blockDim/2, repeat reduceHalve and halve offs until it reaches zero. The fuel
only has to dominate the iteration count; reduceWhile passes offs itself. -/
def reduceWhileAux : ℕ → (ℕ → ℚ) → ℕ → (ℕ → ℚ)
  | 0, s, _ => s
  | fuel + 1, s, offs =>
    if offs = 0 then s
    else reduceWhileAux fuel (reduceHalve s offs) (offs / 2)

/-- The reduction loop run to completion from a given initial offset. -/
def reduceWhile (s : ℕ → ℚ) (offs : ℕ) : ℕ → ℚ :=
  reduceWhileAux (offs + 1) s offs

/-- The per-thread 2K contribution of gpu_npt_group_temperature_kernel,
lines 421-435: mass * (vx*vx + vy*vy + vz*vz) of its group member, zero when
the thread's global index is at or beyond group_size. -/
def group_temperature_contrib (pdata : gpu_pdata_arrays)
    (d_group_members : ℕ → ℕ) (group_size : ℕ) (group_idx : ℕ) : ℚ :=
  if group_idx < group_size then
    let idx := d_group_members group_idx
    let vel := pdata.vel idx
    pdata.mass idx * (vel.x * vel.x + vel.y * vel.y + vel.z * vel.z)
  else 0

/-- gpu_npt_group_temperature_kernel, lines 415-455: each block loads its
threads' 2K contributions into shared memory, tree-reduces them starting at
offs = blockDim/2, and thread 0 of block b writes sdata[0] into
d_partial_sum2K[b]; slots at or beyond num_blocks keep their old content. -/
def gpu_npt_group_temperature_kernel (d_partial_sum2K : ℕ → ℚ)
    (pdata : gpu_pdata_arrays) (d_group_members : ℕ → ℕ)
    (group_size block_size num_blocks : ℕ) : ℕ → ℚ :=
  fun b =>
    if b < num_blocks then
      reduceWhile
        (fun tid => group_temperature_contrib pdata d_group_members group_size
          (b * block_size + tid))
        (block_size / 2) 0
    else d_partial_sum2K b

/-- gpu_npt_group_temperature, lines 466-499: bind the vel and mass textures
(first failure returned) and launch the reduction kernel. -/
def gpu_npt_group_temperature (env : CudaEnv) (d_partial_sum2K : ℕ → ℚ)
    (pdata : gpu_pdata_arrays) (d_group_members : ℕ → ℕ)
    (group_size block_size num_blocks : ℕ) : DriverOutcome (ℕ → ℚ) :=
  if env.bindVel ≠ cudaError.success then ⟨env.bindVel, false, d_partial_sum2K⟩
  else if env.bindMass ≠ cudaError.success then ⟨env.bindMass, false, d_partial_sum2K⟩
  else
    launchEpilogue env
      (gpu_npt_group_temperature_kernel d_partial_sum2K pdata d_group_members
        group_size block_size num_blocks)
      d_partial_sum2K

/-- The per-thread virial contribution of gpu_npt_pressure_kernel2,
lines 520-525: d_net_virial[idx], zero when idx is at or beyond local_num. -/
def pressure_virial_contrib (pdata : gpu_pdata_arrays) (d_net_virial : ℕ → ℚ)
    (idx : ℕ) : ℚ :=
  if idx < pdata.local_num then d_net_virial idx else 0

/-- The per-thread 2K contribution of gpu_npt_pressure_kernel2, lines 546-553:
mass * (vx*vx + vy*vy + vz*vz) of particle idx, read directly from the particle
arrays, zero when idx is at or beyond local_num. -/
def pressure_2K_contrib (pdata : gpu_pdata_arrays) (idx : ℕ) : ℚ :=
  if idx < pdata.local_num then
    let vel := pdata.vel idx
    pdata.mass idx * (vel.x * vel.x + vel.y * vel.y + vel.z * vel.z)
  else 0

/-- gpu_npt_pressure_kernel2, lines 511-573: over all particles, first
tree-reduce the per-thread virial contributions of each block into
d_partial_sumW[b], then reuse the shared buffer to tree-reduce the 2K
contributions into d_partial_sum2K[b]; both loops start at offs = blockDim/2
and thread 0 writes slot b. Returns (new 2K array, new W array). -/
def gpu_npt_pressure_kernel2 (d_partial_sum2K d_partial_sumW : ℕ → ℚ)
    (pdata : gpu_pdata_arrays) (d_net_virial : ℕ → ℚ)
    (block_size num_blocks : ℕ) : (ℕ → ℚ) × (ℕ → ℚ) :=
  (fun b =>
    if b < num_blocks then
      reduceWhile
        (fun tid => pressure_2K_contrib pdata (b * block_size + tid))
        (block_size / 2) 0
    else d_partial_sum2K b,
   fun b =>
    if b < num_blocks then
      reduceWhile
        (fun tid => pressure_virial_contrib pdata d_net_virial
          (b * block_size + tid))
        (block_size / 2) 0
    else d_partial_sumW b)

/-- gpu_npt_pressure2, lines 584-610: no texture is bound; the kernel is
launched directly and the usual error-checking epilogue runs. -/
def gpu_npt_pressure2 (env : CudaEnv) (d_partial_sum2K d_partial_sumW : ℕ → ℚ)
    (pdata : gpu_pdata_arrays) (d_net_virial : ℕ → ℚ)
    (block_size num_blocks : ℕ) : DriverOutcome ((ℕ → ℚ) × (ℕ → ℚ)) :=
  launchEpilogue env
    (gpu_npt_pressure_kernel2 d_partial_sum2K d_partial_sumW pdata d_net_virial
      block_size num_blocks)
    (d_partial_sum2K, d_partial_sumW)

/-- Reference velocity half-kick, following the words of the spec (section 8):
a plain velocity-Verlet half-kick v + (1/2)*dt*a. -/
def spec_verlet_half_kick (v a deltaT : ℚ) : ℚ := v + (1/2) * deltaT * a

/-- Reference drift, following the words of the spec (section 8): a plain
velocity-Verlet drift p + v*dt with the updated velocity. -/
def spec_verlet_drift (p v deltaT : ℚ) : ℚ := p + v * deltaT

theorem launchEpilogue_state {α : Type} (env : CudaEnv) (m o : α)
    (hl : env.launchResult = cudaError.success) :
    (launchEpilogue env m o).state = m := by
  unfold launchEpilogue
  split <;> simp [hl]

theorem launchEpilogue_status {α : Type} (env : CudaEnv) (m o : α) :
    (launchEpilogue env m o).status
      = if env.g_gpu_error_checking then env.postSyncError else cudaError.success := by
  unfold launchEpilogue
  split <;> simp_all

theorem launchEpilogue_launched {α : Type} (env : CudaEnv) (m o : α) :
    (launchEpilogue env m o).launched = true := by
  unfold launchEpilogue
  split <;> rfl

theorem launchEpilogue_state_of_fail {α : Type} (env : CudaEnv) (m o : α)
    (hl : env.launchResult ≠ cudaError.success) :
    (launchEpilogue env m o).state = o := by
  unfold launchEpilogue
  split <;> simp [hl]

theorem writesParticle_true (d_group_members : ℕ → ℕ)
    (group_size num_threads g : ℕ) (h1 : g < num_threads) (h2 : g < group_size) :
    writesParticle d_group_members group_size num_threads (d_group_members g) = true := by
  unfold writesParticle
  rw [List.any_eq_true]
  exact ⟨g, List.mem_range.mpr h1, by simp [h2]⟩

theorem reduceWhileAux_offs_zero (fuel : ℕ) (s : ℕ → ℚ) :
    reduceWhileAux fuel s 0 = s := by
  cases fuel <;> rfl

theorem reduceHalve_sum (s : ℕ → ℚ) (n : ℕ) :
    ∑ i ∈ Finset.range n, reduceHalve s n i = ∑ i ∈ Finset.range (n + n), s i := by
  rw [Finset.sum_range_add, ← Finset.sum_add_distrib]
  refine Finset.sum_congr rfl fun i hi => ?_
  rw [Finset.mem_range] at hi
  simp only [reduceHalve, if_pos hi, Nat.add_comm i n]

theorem reduceWhileAux_pow (k : ℕ) :
    ∀ (fuel : ℕ) (s : ℕ → ℚ), k < fuel →
      reduceWhileAux fuel s (2 ^ k) 0 = ∑ i ∈ Finset.range (2 ^ (k + 1)), s i := by
  induction k with
  | zero =>
    intro fuel s hf
    match fuel, hf with
    | f + 1, _ =>
      show reduceWhileAux (f + 1) s 1 0 = _
      have h1 : reduceWhileAux (f + 1) s 1 = reduceWhileAux f (reduceHalve s 1) 0 := by
        simp [reduceWhileAux]
      rw [h1, reduceWhileAux_offs_zero]
      simp [reduceHalve, Finset.sum_range_succ]
  | succ j ih =>
    intro fuel s hf
    match fuel, hf with
    | f + 1, hf =>
      have hj : j < f := Nat.lt_of_succ_lt_succ hf
      have h0 : (2 : ℕ) ^ (j + 1) ≠ 0 := (pow_pos (by norm_num) (j + 1)).ne'
      have hdiv : (2 : ℕ) ^ (j + 1) / 2 = 2 ^ j := by
        rw [pow_succ]
        exact Nat.mul_div_cancel _ (by norm_num)
      have hsplit : reduceWhileAux (f + 1) s (2 ^ (j + 1))
          = reduceWhileAux f (reduceHalve s (2 ^ (j + 1))) (2 ^ (j + 1) / 2) := by
        simp only [reduceWhileAux, if_neg h0]
      rw [hsplit, hdiv, ih f _ hj, reduceHalve_sum]
      have hpow : (2 : ℕ) ^ (j + 1) + 2 ^ (j + 1) = 2 ^ (j + 1 + 1) := by
        rw [pow_succ (2 : ℕ) (j + 1)]
        omega
      rw [hpow]

theorem reduceWhile_sum (block_size k : ℕ) (hk : block_size = 2 ^ k) (s : ℕ → ℚ) :
    reduceWhile s (block_size / 2) 0 = ∑ i ∈ Finset.range block_size, s i := by
  subst hk
  cases k with
  | zero =>
    show reduceWhile s (1 / 2) 0 = _
    have h12 : (1 : ℕ) / 2 = 0 := by norm_num
    rw [h12]
    simp [reduceWhile, reduceWhileAux, Finset.sum_range_one]
  | succ j =>
    have hdiv : (2 : ℕ) ^ (j + 1) / 2 = 2 ^ j := by
      rw [pow_succ]
      exact Nat.mul_div_cancel _ (by norm_num)
    rw [hdiv]
    unfold reduceWhile
    exact reduceWhileAux_pow j (2 ^ j + 1) s (Nat.lt_succ_of_lt (Nat.lt_two_pow j))

theorem boxscale_grid_covers (local_num block_size : ℕ) (h : 0 < block_size) :
    local_num < gpu_npt_boxscale_grid local_num block_size * block_size := by
  unfold gpu_npt_boxscale_grid
  have h1 : block_size * (local_num / block_size) + local_num % block_size
      = local_num := Nat.div_add_mod local_num block_size
  have h2 : local_num % block_size < block_size := Nat.mod_lt local_num h
  have h3 : local_num < block_size * (local_num / block_size) + block_size := by omega
  calc local_num < block_size * (local_num / block_size) + block_size := h3
    _ = (local_num / block_size + 1) * block_size := by ring

/-- A CudaEnv in which every runtime call succeeds and checking is off. -/
def env0 : CudaEnv :=
  { bindPos := cudaError.success, bindVel := cudaError.success
    bindAccel := cudaError.success, bindMass := cudaError.success
    bindImage := cudaError.success, bindNetForce := cudaError.success
    launchResult := cudaError.success, asyncResult := cudaError.success
    g_gpu_error_checking := false }

/-- A small concrete particle store used to instantiate the theorems. -/
def pdata0 : gpu_pdata_arrays :=
  { pos := fun _ => ⟨1, 2, 3, 4⟩
    vel := fun _ => ⟨1, 1, 1, 9⟩
    accel := fun _ => ⟨2, 0, 0, 0⟩
    mass := fun _ => 2
    image := fun _ => ⟨0, 0, 0, 0⟩
    N := 4
    local_num := 4 }

/-- The identity group-member list. -/
def members0 : ℕ → ℕ := fun g => g

/-- A concrete stand-in for the C exp: the constant function 2. -/
def expf2 : ℚ → ℚ := fun _ => 2

/-- A concrete stand-in for the C exp that fixes exp 0 = 1. -/
def expf1 : ℚ → ℚ := fun _ => 1

/-- A concrete box of edge length 4. -/
def box0 : gpu_boxsize := ⟨4, 4, 4, 1/4, 1/4, 1/4⟩

/-- Claim C7: for every total particle count N and block size B >= 1, the
boxRescale grid of (N / B) + 1 blocks of B workers comprises at least N
workers, and every particle index below N is handled by exactly one
(block, thread) pair of the grid. -/
theorem C7_boxscale_grid_coverage (local_num block_size : ℕ)
    (h : 1 ≤ block_size) :
    local_num ≤ gpu_npt_boxscale_grid local_num block_size * block_size
    ∧ ∀ i, i < local_num →
        ∃! bt : ℕ × ℕ, bt.1 < gpu_npt_boxscale_grid local_num block_size
          ∧ bt.2 < block_size ∧ bt.1 * block_size + bt.2 = i := by
  constructor
  · exact le_of_lt (boxscale_grid_covers local_num block_size h)
  · intro i hi
    refine ⟨(i / block_size, i % block_size), ⟨?_, ?_, ?_⟩, ?_⟩
    · exact Nat.lt_succ_of_le (Nat.div_le_div_right (le_of_lt hi))
    · exact Nat.mod_lt i h
    · rw [Nat.mul_comm]
      exact Nat.div_add_mod i block_size
    · rintro ⟨b, t⟩ ⟨hb, ht, hbt⟩
      dsimp only at hb ht hbt
      rw [Nat.mul_comm, Nat.add_comm] at hbt
      have key : i / block_size = b ∧ i % block_size = t :=
        (Nat.div_mod_unique h).mpr ⟨hbt, ht⟩
      exact Prod.ext_iff.mpr ⟨key.1.symm, key.2.symm⟩

/-- Claim C7 witness: with 5 particles and block size 2 the grid has at least
5 workers and particle index 3 is handled by exactly one (block, thread) pair. -/
theorem C7_boxscale_grid_coverage_witness :
    (1 ≤ 2 ∧ 5 ≤ gpu_npt_boxscale_grid 5 2 * 2)
    ∧ ∃! bt : ℕ × ℕ,
        bt.1 < gpu_npt_boxscale_grid 5 2 ∧ bt.2 < 2 ∧ bt.1 * 2 + bt.2 = 3 := by
  have h := C7_boxscale_grid_coverage 5 2 (by decide)
  exact ⟨⟨by decide, h.1⟩, h.2 3 (by decide)⟩

/-- Claim C1: through the step-one driver, every group member g < group_size
with idx = d_group_members[g] has each of its three velocity components
updated to v*velScale^2 + (1/2)*deltaT*velScale*a and then each of its three
position components updated to p + v*deltaT/posScale with the updated v,
where velScale = exp(-(Xi+Eta)*deltaT/4) and posScale = exp(Eta*deltaT/2) are
the factors the driver computes; the fourth position and velocity slots are
written back unchanged. -/
theorem C1_step_one_update (expf : ℚ → ℚ) (env : CudaEnv)
    (pdata : gpu_pdata_arrays) (d_group_members : ℕ → ℕ)
    (group_size block_size num_blocks : ℕ) (Xi Eta deltaT : ℚ) (g : ℕ)
    (hbp : env.bindPos = cudaError.success)
    (hbv : env.bindVel = cudaError.success)
    (hba : env.bindAccel = cudaError.success)
    (hl : env.launchResult = cudaError.success)
    (hg : g < group_size)
    (hcover : group_size ≤ num_blocks * block_size) :
    ((gpu_npt_step_one expf env pdata d_group_members group_size block_size
        num_blocks Xi Eta deltaT).state.vel (d_group_members g)).x
      = (pdata.vel (d_group_members g)).x * expf (-(Xi + Eta) * deltaT / 4) ^ 2
        + (1/2) * deltaT * expf (-(Xi + Eta) * deltaT / 4)
          * (pdata.accel (d_group_members g)).x
    ∧ ((gpu_npt_step_one expf env pdata d_group_members group_size block_size
        num_blocks Xi Eta deltaT).state.vel (d_group_members g)).y
      = (pdata.vel (d_group_members g)).y * expf (-(Xi + Eta) * deltaT / 4) ^ 2
        + (1/2) * deltaT * expf (-(Xi + Eta) * deltaT / 4)
          * (pdata.accel (d_group_members g)).y
    ∧ ((gpu_npt_step_one expf env pdata d_group_members group_size block_size
        num_blocks Xi Eta deltaT).state.vel (d_group_members g)).z
      = (pdata.vel (d_group_members g)).z * expf (-(Xi + Eta) * deltaT / 4) ^ 2
        + (1/2) * deltaT * expf (-(Xi + Eta) * deltaT / 4)
          * (pdata.accel (d_group_members g)).z
    ∧ ((gpu_npt_step_one expf env pdata d_group_members group_size block_size
        num_blocks Xi Eta deltaT).state.pos (d_group_members g)).x
      = (pdata.pos (d_group_members g)).x
        + ((gpu_npt_step_one expf env pdata d_group_members group_size block_size
            num_blocks Xi Eta deltaT).state.vel (d_group_members g)).x
          * deltaT / expf (Eta * deltaT / 2)
    ∧ ((gpu_npt_step_one expf env pdata d_group_members group_size block_size
        num_blocks Xi Eta deltaT).state.pos (d_group_members g)).y
      = (pdata.pos (d_group_members g)).y
        + ((gpu_npt_step_one expf env pdata d_group_members group_size block_size
            num_blocks Xi Eta deltaT).state.vel (d_group_members g)).y
          * deltaT / expf (Eta * deltaT / 2)
    ∧ ((gpu_npt_step_one expf env pdata d_group_members group_size block_size
        num_blocks Xi Eta deltaT).state.pos (d_group_members g)).z
      = (pdata.pos (d_group_members g)).z
        + ((gpu_npt_step_one expf env pdata d_group_members group_size block_size
            num_blocks Xi Eta deltaT).state.vel (d_group_members g)).z
          * deltaT / expf (Eta * deltaT / 2)
    ∧ ((gpu_npt_step_one expf env pdata d_group_members group_size block_size
        num_blocks Xi Eta deltaT).state.pos (d_group_members g)).w
      = (pdata.pos (d_group_members g)).w
    ∧ ((gpu_npt_step_one expf env pdata d_group_members group_size block_size
        num_blocks Xi Eta deltaT).state.vel (d_group_members g)).w
      = (pdata.vel (d_group_members g)).w := by
  have harg : (-(1/4) * (Eta + Xi) * deltaT) = -(Xi + Eta) * deltaT / 4 := by ring
  have harg2 : ((1/2) * Eta * deltaT) = Eta * deltaT / 2 := by ring
  have hwrites := writesParticle_true d_group_members group_size
    (num_blocks * block_size) g (Nat.lt_of_lt_of_le hg hcover) hg
  have hstate : (gpu_npt_step_one expf env pdata d_group_members group_size
      block_size num_blocks Xi Eta deltaT).state
      = gpu_npt_step_one_kernel pdata d_group_members group_size
          (expf (-(1/4) * (Eta + Xi) * deltaT)) (expf ((1/2) * Eta * deltaT))
          deltaT (num_blocks * block_size) := by
    unfold gpu_npt_step_one
    rw [hbp, hbv, hba]
    simp [launchEpilogue_state _ _ _ hl]
  rw [hstate, harg, harg2]
  simp only [gpu_npt_step_one_kernel, hwrites, if_true]
  refine ⟨by ring, by ring, by ring, by ring, by ring, by ring, by trivial, by trivial⟩

/-- Claim C1 witness: the step-one theorem instantiated on concrete data
(velScale = posScale = 2, deltaT = 1, particle 0 with v = (1,1,1), a = (2,0,0),
p = (1,2,3,4)): the new x velocity is 1*4 + (1/2)*1*2*2 = 6, the new x
position is 1 + 6*1/2 = 4, and the fourth position slot stays 4. -/
theorem C1_step_one_update_witness :
    ((gpu_npt_step_one expf2 env0 pdata0 members0 1 1 1 0 0 1).state.vel
        (members0 0)).x = 6
    ∧ ((gpu_npt_step_one expf2 env0 pdata0 members0 1 1 1 0 0 1).state.pos
        (members0 0)).x = 4
    ∧ ((gpu_npt_step_one expf2 env0 pdata0 members0 1 1 1 0 0 1).state.pos
        (members0 0)).w = 4 := by
  have h := C1_step_one_update expf2 env0 pdata0 members0 1 1 1 0 0 1 0
    rfl rfl rfl rfl (by decide) (by decide)
  refine ⟨?_, ?_, ?_⟩
  · rw [h.1]
    norm_num [expf2, pdata0, members0]
  · rw [h.2.2.2.1, h.1]
    norm_num [expf2, pdata0, members0]
  · rw [h.2.2.2.2.2.2.1]
    norm_num [pdata0, members0]

/-- Claim C3: through the step-two driver, every group member g < group_size
with idx = d_group_members[g] gets its acceleration recomputed as
netForce/mass component-wise, its three velocity components updated to
v*velScale^2 + (1/2)*deltaT*velScale*a with velScale = exp(-(Xi+Eta)*deltaT/4)
(the same formula as step one), both written back, and no particle's position
is modified. -/
theorem C3_step_two_update (expf : ℚ → ℚ) (env : CudaEnv)
    (pdata : gpu_pdata_arrays) (d_group_members : ℕ → ℕ) (group_size : ℕ)
    (d_net_force : ℕ → float4) (block_size num_blocks : ℕ)
    (Xi Eta deltaT : ℚ) (g : ℕ)
    (hbv : env.bindVel = cudaError.success)
    (hbm : env.bindMass = cudaError.success)
    (hbn : env.bindNetForce = cudaError.success)
    (hl : env.launchResult = cudaError.success)
    (hg : g < group_size)
    (hcover : group_size ≤ num_blocks * block_size) :
    ((gpu_npt_step_two expf env pdata d_group_members group_size d_net_force
        block_size num_blocks Xi Eta deltaT).state.accel (d_group_members g)).x
      = (d_net_force (d_group_members g)).x / pdata.mass (d_group_members g)
    ∧ ((gpu_npt_step_two expf env pdata d_group_members group_size d_net_force
        block_size num_blocks Xi Eta deltaT).state.accel (d_group_members g)).y
      = (d_net_force (d_group_members g)).y / pdata.mass (d_group_members g)
    ∧ ((gpu_npt_step_two expf env pdata d_group_members group_size d_net_force
        block_size num_blocks Xi Eta deltaT).state.accel (d_group_members g)).z
      = (d_net_force (d_group_members g)).z / pdata.mass (d_group_members g)
    ∧ ((gpu_npt_step_two expf env pdata d_group_members group_size d_net_force
        block_size num_blocks Xi Eta deltaT).state.vel (d_group_members g)).x
      = (pdata.vel (d_group_members g)).x * expf (-(Xi + Eta) * deltaT / 4) ^ 2
        + (1/2) * deltaT * expf (-(Xi + Eta) * deltaT / 4)
          * ((d_net_force (d_group_members g)).x / pdata.mass (d_group_members g))
    ∧ ((gpu_npt_step_two expf env pdata d_group_members group_size d_net_force
        block_size num_blocks Xi Eta deltaT).state.vel (d_group_members g)).y
      = (pdata.vel (d_group_members g)).y * expf (-(Xi + Eta) * deltaT / 4) ^ 2
        + (1/2) * deltaT * expf (-(Xi + Eta) * deltaT / 4)
          * ((d_net_force (d_group_members g)).y / pdata.mass (d_group_members g))
    ∧ ((gpu_npt_step_two expf env pdata d_group_members group_size d_net_force
        block_size num_blocks Xi Eta deltaT).state.vel (d_group_members g)).z
      = (pdata.vel (d_group_members g)).z * expf (-(Xi + Eta) * deltaT / 4) ^ 2
        + (1/2) * deltaT * expf (-(Xi + Eta) * deltaT / 4)
          * ((d_net_force (d_group_members g)).z / pdata.mass (d_group_members g))
    ∧ (gpu_npt_step_two expf env pdata d_group_members group_size d_net_force
        block_size num_blocks Xi Eta deltaT).state.pos = pdata.pos := by
  have harg : (-(1/4) * (Eta + Xi) * deltaT) = -(Xi + Eta) * deltaT / 4 := by ring
  have hwrites := writesParticle_true d_group_members group_size
    (num_blocks * block_size) g (Nat.lt_of_lt_of_le hg hcover) hg
  have hstate : (gpu_npt_step_two expf env pdata d_group_members group_size
      d_net_force block_size num_blocks Xi Eta deltaT).state
      = gpu_npt_step_two_kernel pdata d_group_members group_size d_net_force
          (expf (-(1/4) * (Eta + Xi) * deltaT)) deltaT
          (num_blocks * block_size) := by
    unfold gpu_npt_step_two
    rw [hbv, hbm, hbn]
    simp [launchEpilogue_state _ _ _ hl]
  rw [hstate, harg]
  simp only [gpu_npt_step_two_kernel, gpu_npt_step_two_thread, hwrites, if_true]
  refine ⟨by trivial, by trivial, by trivial, by ring, by ring, by ring, by trivial⟩

/-- Claim C3 witness: step two instantiated on concrete data (velScale = 2,
deltaT = 1, particle 0 with v = (1,1,1), mass 2, net force (6,0,0)): the new
x acceleration is 6/2 = 3, the new x velocity is 1*4 + (1/2)*1*2*3 = 7, and
the x position stays 1. -/
theorem C3_step_two_update_witness :
    ((gpu_npt_step_two expf2 env0 pdata0 members0 1 (fun _ => ⟨6, 0, 0, 0⟩)
        1 1 0 0 1).state.accel (members0 0)).x = 3
    ∧ ((gpu_npt_step_two expf2 env0 pdata0 members0 1 (fun _ => ⟨6, 0, 0, 0⟩)
        1 1 0 0 1).state.vel (members0 0)).x = 7
    ∧ ((gpu_npt_step_two expf2 env0 pdata0 members0 1 (fun _ => ⟨6, 0, 0, 0⟩)
        1 1 0 0 1).state.pos (members0 0)).x = 1 := by
  have h := C3_step_two_update expf2 env0 pdata0 members0 1
    (fun _ => ⟨6, 0, 0, 0⟩) 1 1 0 0 1 0 rfl rfl rfl rfl (by decide) (by decide)
  refine ⟨?_, ?_, ?_⟩
  · rw [h.1]
    norm_num [pdata0, members0]
  · rw [h.2.2.2.1]
    norm_num [expf2, pdata0, members0]
  · rw [h.2.2.2.2.2.2]
    norm_num [pdata0, members0]

/-- Claim C2: through the boxscale driver, every particle index below
local_num (group membership irrelevant) has each position component
multiplied by lenScale = exp(Eta*deltaT); then, with the scaled box length
L' = L*lenScale and its recomputed reciprocal 1/L', the shift
rne(p * (1/L')) is computed per axis, L' * shift is subtracted from the
position and the integer shift is added to the image counter. -/
theorem C2_boxscale_update (expf : ℚ → ℚ) (env : CudaEnv)
    (pdata : gpu_pdata_arrays) (box : gpu_boxsize) (block_size : ℕ)
    (Eta deltaT : ℚ) (idx : ℕ)
    (hbp : env.bindPos = cudaError.success)
    (hbi : env.bindImage = cudaError.success)
    (hl : env.launchResult = cudaError.success)
    (hbs : 0 < block_size)
    (hidx : idx < pdata.local_num) :
    ((gpu_npt_boxscale expf env pdata box block_size Eta deltaT).state.pos idx).x
      = (pdata.pos idx).x * expf (Eta * deltaT)
        - box.Lx * expf (Eta * deltaT)
          * ((rne ((pdata.pos idx).x * expf (Eta * deltaT)
              * (1 / (box.Lx * expf (Eta * deltaT))))) : ℚ)
    ∧ ((gpu_npt_boxscale expf env pdata box block_size Eta deltaT).state.pos idx).y
      = (pdata.pos idx).y * expf (Eta * deltaT)
        - box.Ly * expf (Eta * deltaT)
          * ((rne ((pdata.pos idx).y * expf (Eta * deltaT)
              * (1 / (box.Ly * expf (Eta * deltaT))))) : ℚ)
    ∧ ((gpu_npt_boxscale expf env pdata box block_size Eta deltaT).state.pos idx).z
      = (pdata.pos idx).z * expf (Eta * deltaT)
        - box.Lz * expf (Eta * deltaT)
          * ((rne ((pdata.pos idx).z * expf (Eta * deltaT)
              * (1 / (box.Lz * expf (Eta * deltaT))))) : ℚ)
    ∧ ((gpu_npt_boxscale expf env pdata box block_size Eta deltaT).state.image idx).x
      = (pdata.image idx).x
        + rne ((pdata.pos idx).x * expf (Eta * deltaT)
            * (1 / (box.Lx * expf (Eta * deltaT))))
    ∧ ((gpu_npt_boxscale expf env pdata box block_size Eta deltaT).state.image idx).y
      = (pdata.image idx).y
        + rne ((pdata.pos idx).y * expf (Eta * deltaT)
            * (1 / (box.Ly * expf (Eta * deltaT))))
    ∧ ((gpu_npt_boxscale expf env pdata box block_size Eta deltaT).state.image idx).z
      = (pdata.image idx).z
        + rne ((pdata.pos idx).z * expf (Eta * deltaT)
            * (1 / (box.Lz * expf (Eta * deltaT)))) := by
  have hcov := boxscale_grid_covers pdata.local_num block_size hbs
  have hin : idx < gpu_npt_boxscale_grid pdata.local_num block_size * block_size
      ∧ idx < pdata.local_num := ⟨Nat.lt_trans hidx hcov, hidx⟩
  have hstate : (gpu_npt_boxscale expf env pdata box block_size Eta deltaT).state
      = gpu_npt_boxscale_kernel pdata
          { Lx := box.Lx * expf (Eta * deltaT)
            Ly := box.Ly * expf (Eta * deltaT)
            Lz := box.Lz * expf (Eta * deltaT)
            Lxinv := 1 / (box.Lx * expf (Eta * deltaT))
            Lyinv := 1 / (box.Ly * expf (Eta * deltaT))
            Lzinv := 1 / (box.Lz * expf (Eta * deltaT)) }
          (expf (Eta * deltaT))
          (gpu_npt_boxscale_grid pdata.local_num block_size * block_size) := by
    unfold gpu_npt_boxscale
    rw [hbp, hbi]
    simp [launchEpilogue_state _ _ _ hl]
  rw [hstate]
  simp only [gpu_npt_boxscale_kernel, boxscale_thread, if_pos hin]
  exact ⟨trivial, trivial, trivial, trivial, trivial, trivial⟩

/-- Claim C2 witness: with edge length 4, lenScale 2 (so scaled length 8) and
particle 0 at position (1,2,3,4): x becomes 2 (shift 0), y becomes 4
(4/8 = 1/2 rounds to even 0), z becomes 6 - 8 = -2 (6/8 rounds to 1) with the
z image counter going from 0 to 1. -/
theorem C2_boxscale_update_witness :
    ((gpu_npt_boxscale expf2 env0 pdata0 box0 2 0 1).state.pos 0).x = 2
    ∧ ((gpu_npt_boxscale expf2 env0 pdata0 box0 2 0 1).state.pos 0).y = 4
    ∧ ((gpu_npt_boxscale expf2 env0 pdata0 box0 2 0 1).state.pos 0).z = -2
    ∧ ((gpu_npt_boxscale expf2 env0 pdata0 box0 2 0 1).state.image 0).z = 1 := by
  have h := C2_boxscale_update expf2 env0 pdata0 box0 2 0 1 0
    rfl rfl rfl (by decide) (by decide)
  refine ⟨?_, ?_, ?_, ?_⟩
  · rw [h.1]
    norm_num [expf2, pdata0, box0, rne]
  · rw [h.2.1]
    norm_num [expf2, pdata0, box0, rne]
  · rw [h.2.2.1]
    norm_num [expf2, pdata0, box0, rne]
  · rw [h.2.2.2.2.2]
    norm_num [expf2, pdata0, box0, rne]

/-- Claim C9: the boxscale kernel multiplies the fourth (auxiliary) position
slot by lenScale along with the three spatial components, whereas the step-one
kernel passes that slot through unchanged. -/
theorem C9_boxscale_scales_w_slot (expf : ℚ → ℚ) (env : CudaEnv)
    (pdata : gpu_pdata_arrays) (box : gpu_boxsize)
    (d_group_members : ℕ → ℕ) (group_size block_size num_blocks : ℕ)
    (Xi Eta deltaT : ℚ) (idx g : ℕ)
    (hbp : env.bindPos = cudaError.success)
    (hbv : env.bindVel = cudaError.success)
    (hba : env.bindAccel = cudaError.success)
    (hbi : env.bindImage = cudaError.success)
    (hl : env.launchResult = cudaError.success)
    (hbs : 0 < block_size)
    (hidx : idx < pdata.local_num)
    (hg : g < group_size)
    (hcover : group_size ≤ num_blocks * block_size) :
    ((gpu_npt_boxscale expf env pdata box block_size Eta deltaT).state.pos idx).w
      = (pdata.pos idx).w * expf (Eta * deltaT)
    ∧ ((gpu_npt_step_one expf env pdata d_group_members group_size block_size
        num_blocks Xi Eta deltaT).state.pos (d_group_members g)).w
      = (pdata.pos (d_group_members g)).w := by
  constructor
  · have hcov := boxscale_grid_covers pdata.local_num block_size hbs
    have hin : idx < gpu_npt_boxscale_grid pdata.local_num block_size * block_size
        ∧ idx < pdata.local_num := ⟨Nat.lt_trans hidx hcov, hidx⟩
    have hstate : (gpu_npt_boxscale expf env pdata box block_size Eta deltaT).state
        = gpu_npt_boxscale_kernel pdata
            { Lx := box.Lx * expf (Eta * deltaT)
              Ly := box.Ly * expf (Eta * deltaT)
              Lz := box.Lz * expf (Eta * deltaT)
              Lxinv := 1 / (box.Lx * expf (Eta * deltaT))
              Lyinv := 1 / (box.Ly * expf (Eta * deltaT))
              Lzinv := 1 / (box.Lz * expf (Eta * deltaT)) }
            (expf (Eta * deltaT))
            (gpu_npt_boxscale_grid pdata.local_num block_size * block_size) := by
      unfold gpu_npt_boxscale
      rw [hbp, hbi]
      simp [launchEpilogue_state _ _ _ hl]
    rw [hstate]
    simp only [gpu_npt_boxscale_kernel, boxscale_thread, if_pos hin]
  · have hwrites := writesParticle_true d_group_members group_size
      (num_blocks * block_size) g (Nat.lt_of_lt_of_le hg hcover) hg
    have hstate : (gpu_npt_step_one expf env pdata d_group_members group_size
        block_size num_blocks Xi Eta deltaT).state
        = gpu_npt_step_one_kernel pdata d_group_members group_size
            (expf (-(1/4) * (Eta + Xi) * deltaT)) (expf ((1/2) * Eta * deltaT))
            deltaT (num_blocks * block_size) := by
      unfold gpu_npt_step_one
      rw [hbp, hbv, hba]
      simp [launchEpilogue_state _ _ _ hl]
    rw [hstate]
    simp only [gpu_npt_step_one_kernel, hwrites, if_true]

/-- Claim C9 witness: with lenScale 2 the fourth position slot of particle 0
goes from 4 to 8 under boxscale, while step one leaves it at 4. -/
theorem C9_boxscale_scales_w_slot_witness :
    ((gpu_npt_boxscale expf2 env0 pdata0 box0 2 0 1).state.pos 0).w = 8
    ∧ ((gpu_npt_step_one expf2 env0 pdata0 members0 1 2 1 0 0 1).state.pos
        (members0 0)).w = 4 := by
  have h := C9_boxscale_scales_w_slot expf2 env0 pdata0 box0 members0 1 2 1
    0 0 1 0 0 rfl rfl rfl rfl rfl (by decide) (by decide) (by decide) (by decide)
  refine ⟨?_, ?_⟩
  · rw [h.1]
    norm_num [expf2, pdata0]
  · rw [h.2]
    norm_num [pdata0, members0]

/-- Claim C8: with Xi = 0 and Eta = 0 and any deltaT, the two scaling factors
the drivers compute equal 1 (given exp 0 = 1), and the step-one and step-two
updates then coincide exactly with a plain velocity-Verlet
half-kick/drift/half-kick reference step v + (1/2)*deltaT*a and p + v*deltaT. -/
theorem C8_verlet_reduction (expf : ℚ → ℚ) (env : CudaEnv)
    (pdata : gpu_pdata_arrays) (d_group_members : ℕ → ℕ)
    (group_size block_size num_blocks : ℕ) (d_net_force : ℕ → float4)
    (deltaT : ℚ) (g : ℕ)
    (hexp : expf 0 = 1)
    (hbp : env.bindPos = cudaError.success)
    (hbv : env.bindVel = cudaError.success)
    (hba : env.bindAccel = cudaError.success)
    (hbm : env.bindMass = cudaError.success)
    (hbn : env.bindNetForce = cudaError.success)
    (hl : env.launchResult = cudaError.success)
    (hg : g < group_size)
    (hcover : group_size ≤ num_blocks * block_size) :
    expf (-(1/4) * ((0:ℚ) + 0) * deltaT) = 1
    ∧ expf ((1/2) * (0:ℚ) * deltaT) = 1
    ∧ ((gpu_npt_step_one expf env pdata d_group_members group_size block_size
        num_blocks 0 0 deltaT).state.vel (d_group_members g)).x
      = spec_verlet_half_kick (pdata.vel (d_group_members g)).x
          (pdata.accel (d_group_members g)).x deltaT
    ∧ ((gpu_npt_step_one expf env pdata d_group_members group_size block_size
        num_blocks 0 0 deltaT).state.vel (d_group_members g)).y
      = spec_verlet_half_kick (pdata.vel (d_group_members g)).y
          (pdata.accel (d_group_members g)).y deltaT
    ∧ ((gpu_npt_step_one expf env pdata d_group_members group_size block_size
        num_blocks 0 0 deltaT).state.vel (d_group_members g)).z
      = spec_verlet_half_kick (pdata.vel (d_group_members g)).z
          (pdata.accel (d_group_members g)).z deltaT
    ∧ ((gpu_npt_step_one expf env pdata d_group_members group_size block_size
        num_blocks 0 0 deltaT).state.pos (d_group_members g)).x
      = spec_verlet_drift (pdata.pos (d_group_members g)).x
          ((gpu_npt_step_one expf env pdata d_group_members group_size block_size
            num_blocks 0 0 deltaT).state.vel (d_group_members g)).x deltaT
    ∧ ((gpu_npt_step_one expf env pdata d_group_members group_size block_size
        num_blocks 0 0 deltaT).state.pos (d_group_members g)).y
      = spec_verlet_drift (pdata.pos (d_group_members g)).y
          ((gpu_npt_step_one expf env pdata d_group_members group_size block_size
            num_blocks 0 0 deltaT).state.vel (d_group_members g)).y deltaT
    ∧ ((gpu_npt_step_one expf env pdata d_group_members group_size block_size
        num_blocks 0 0 deltaT).state.pos (d_group_members g)).z
      = spec_verlet_drift (pdata.pos (d_group_members g)).z
          ((gpu_npt_step_one expf env pdata d_group_members group_size block_size
            num_blocks 0 0 deltaT).state.vel (d_group_members g)).z deltaT
    ∧ ((gpu_npt_step_two expf env pdata d_group_members group_size d_net_force
        block_size num_blocks 0 0 deltaT).state.vel (d_group_members g)).x
      = spec_verlet_half_kick (pdata.vel (d_group_members g)).x
          ((d_net_force (d_group_members g)).x / pdata.mass (d_group_members g))
          deltaT
    ∧ ((gpu_npt_step_two expf env pdata d_group_members group_size d_net_force
        block_size num_blocks 0 0 deltaT).state.vel (d_group_members g)).y
      = spec_verlet_half_kick (pdata.vel (d_group_members g)).y
          ((d_net_force (d_group_members g)).y / pdata.mass (d_group_members g))
          deltaT
    ∧ ((gpu_npt_step_two expf env pdata d_group_members group_size d_net_force
        block_size num_blocks 0 0 deltaT).state.vel (d_group_members g)).z
      = spec_verlet_half_kick (pdata.vel (d_group_members g)).z
          ((d_net_force (d_group_members g)).z / pdata.mass (d_group_members g))
          deltaT := by
  have h0a : (-(1/4) * ((0:ℚ) + 0) * deltaT) = 0 := by ring
  have h0b : ((1/2) * (0:ℚ) * deltaT) = 0 := by ring
  have hwrites := writesParticle_true d_group_members group_size
    (num_blocks * block_size) g (Nat.lt_of_lt_of_le hg hcover) hg
  have hstate1 : (gpu_npt_step_one expf env pdata d_group_members group_size
      block_size num_blocks 0 0 deltaT).state
      = gpu_npt_step_one_kernel pdata d_group_members group_size
          (expf (-(1/4) * ((0:ℚ) + 0) * deltaT)) (expf ((1/2) * (0:ℚ) * deltaT))
          deltaT (num_blocks * block_size) := by
    unfold gpu_npt_step_one
    rw [hbp, hbv, hba]
    simp [launchEpilogue_state _ _ _ hl]
  have hstate2 : (gpu_npt_step_two expf env pdata d_group_members group_size
      d_net_force block_size num_blocks 0 0 deltaT).state
      = gpu_npt_step_two_kernel pdata d_group_members group_size d_net_force
          (expf (-(1/4) * ((0:ℚ) + 0) * deltaT)) deltaT
          (num_blocks * block_size) := by
    unfold gpu_npt_step_two
    rw [hbv, hbm, hbn]
    simp [launchEpilogue_state _ _ _ hl]
  rw [hstate1, hstate2, h0a, h0b, hexp]
  simp only [gpu_npt_step_one_kernel, gpu_npt_step_two_kernel,
    gpu_npt_step_two_thread, spec_verlet_half_kick, spec_verlet_drift,
    hwrites, if_true]
  refine ⟨by trivial, by trivial, by ring, by ring, by ring, by ring, by ring,
    by ring, by ring, by ring, by ring⟩

/-- Claim C8 witness: with exp the constant function 1, Xi = Eta = 0,
deltaT = 1, particle 0 with v = (1,1,1), a = (2,0,0), p = (1,2,3), mass 2 and
net force (6,0,0): step one gives v.x = 1 + (1/2)*1*2 = 2 and
p.x = 1 + 2*1 = 3, and step two gives v.x = 1 + (1/2)*1*(6/2) = 5/2, the
plain velocity-Verlet values. -/
theorem C8_verlet_reduction_witness :
    ((gpu_npt_step_one expf1 env0 pdata0 members0 1 1 1 0 0 1).state.vel
        (members0 0)).x = 2
    ∧ ((gpu_npt_step_one expf1 env0 pdata0 members0 1 1 1 0 0 1).state.pos
        (members0 0)).x = 3
    ∧ ((gpu_npt_step_two expf1 env0 pdata0 members0 1 (fun _ => ⟨6, 0, 0, 0⟩)
        1 1 0 0 1).state.vel (members0 0)).x = 5/2 := by
  have h := C8_verlet_reduction expf1 env0 pdata0 members0 1 1 1
    (fun _ => ⟨6, 0, 0, 0⟩) 1 0 rfl rfl rfl rfl rfl rfl rfl
    (by decide) (by decide)
  refine ⟨?_, ?_, ?_⟩
  · rw [h.2.2.1]
    norm_num [spec_verlet_half_kick, pdata0, members0]
  · rw [h.2.2.2.2.2.1, h.2.2.1]
    norm_num [spec_verlet_drift, spec_verlet_half_kick, pdata0, members0]
  · rw [h.2.2.2.2.2.2.2.2.1]
    norm_num [spec_verlet_half_kick, pdata0, members0]

/-- Claim C10: the step-two thread body divides net force by mass with no
zero check; under the precondition that every group member's mass is nonzero,
the zero-guarded embedding never takes its error branch and agrees with the
unguarded thread body at every group member. -/
theorem C10_step_two_mass_guard (pdata : gpu_pdata_arrays)
    (d_group_members : ℕ → ℕ) (group_size : ℕ) (d_net_force : ℕ → float4)
    (exp_v_fac deltaT : ℚ) (g : ℕ)
    (hmass : ∀ j, j < group_size → pdata.mass (d_group_members j) ≠ 0)
    (hg : g < group_size) :
    gpu_npt_step_two_thread_checked (d_net_force (d_group_members g))
        (pdata.mass (d_group_members g)) (pdata.vel (d_group_members g))
        exp_v_fac deltaT
      = some (gpu_npt_step_two_thread (d_net_force (d_group_members g))
          (pdata.mass (d_group_members g)) (pdata.vel (d_group_members g))
          exp_v_fac deltaT) := by
  unfold gpu_npt_step_two_thread_checked
  rw [if_neg (hmass g hg)]

/-- Claim C10 witness: the guard theorem instantiated on concrete data with
mass 2. -/
theorem C10_step_two_mass_guard_witness :
    (∀ j, j < 1 → pdata0.mass (members0 j) ≠ 0)
    ∧ gpu_npt_step_two_thread_checked
        ((fun _ => (⟨6, 0, 0, 0⟩ : float4)) (members0 0))
        (pdata0.mass (members0 0)) (pdata0.vel (members0 0)) 2 1
      = some (gpu_npt_step_two_thread
          ((fun _ => (⟨6, 0, 0, 0⟩ : float4)) (members0 0))
          (pdata0.mass (members0 0)) (pdata0.vel (members0 0)) 2 1) := by
  have hm : ∀ j, j < 1 → pdata0.mass (members0 j) ≠ 0 := by
    intro j hj
    norm_num [pdata0, members0]
  exact ⟨hm, C10_step_two_mass_guard pdata0 members0 1
    (fun _ => ⟨6, 0, 0, 0⟩) 2 1 0 hm (by decide)⟩

/-- Claim C4: for every power-of-two block size, the in-block
pairwise-halving loops of both reduction kernels leave in output slot b
exactly the sum of the per-worker contributions of block b (a worker whose
global index is out of range contributes zero), and for a group fitting in
one block the slot-0 partial 2K sum equals the sum of mass*|velocity|^2 over
the group members. -/
theorem C4_reduction_partial_sums (d_partial_sum2K d_partial_sumW d_group_sum : ℕ → ℚ)
    (pdata : gpu_pdata_arrays) (d_group_members : ℕ → ℕ) (d_net_virial : ℕ → ℚ)
    (group_size block_size num_blocks k b : ℕ)
    (hpow : block_size = 2 ^ k) (hb : b < num_blocks) :
    gpu_npt_group_temperature_kernel d_group_sum pdata d_group_members
        group_size block_size num_blocks b
      = ∑ tid ∈ Finset.range block_size,
          group_temperature_contrib pdata d_group_members group_size
            (b * block_size + tid)
    ∧ (gpu_npt_pressure_kernel2 d_partial_sum2K d_partial_sumW pdata
        d_net_virial block_size num_blocks).1 b
      = ∑ tid ∈ Finset.range block_size,
          pressure_2K_contrib pdata (b * block_size + tid)
    ∧ (gpu_npt_pressure_kernel2 d_partial_sum2K d_partial_sumW pdata
        d_net_virial block_size num_blocks).2 b
      = ∑ tid ∈ Finset.range block_size,
          pressure_virial_contrib pdata d_net_virial (b * block_size + tid)
    ∧ (group_size ≤ block_size →
        gpu_npt_group_temperature_kernel d_group_sum pdata d_group_members
            group_size block_size num_blocks 0
          = ∑ j ∈ Finset.range group_size,
              pdata.mass (d_group_members j)
                * ((pdata.vel (d_group_members j)).x * (pdata.vel (d_group_members j)).x
                  + (pdata.vel (d_group_members j)).y * (pdata.vel (d_group_members j)).y
                  + (pdata.vel (d_group_members j)).z * (pdata.vel (d_group_members j)).z)) := by
  refine ⟨?_, ?_, ?_, ?_⟩
  · simp only [gpu_npt_group_temperature_kernel, if_pos hb]
    exact reduceWhile_sum block_size k hpow _
  · simp only [gpu_npt_pressure_kernel2, if_pos hb]
    exact reduceWhile_sum block_size k hpow _
  · simp only [gpu_npt_pressure_kernel2, if_pos hb]
    exact reduceWhile_sum block_size k hpow _
  · intro hgs
    have h0 : (0:ℕ) < num_blocks := Nat.lt_of_le_of_lt (Nat.zero_le b) hb
    simp only [gpu_npt_group_temperature_kernel, if_pos h0]
    rw [reduceWhile_sum block_size k hpow]
    calc ∑ tid ∈ Finset.range block_size,
          group_temperature_contrib pdata d_group_members group_size
            (0 * block_size + tid)
        = ∑ tid ∈ Finset.range block_size,
            group_temperature_contrib pdata d_group_members group_size tid := by
          refine Finset.sum_congr rfl fun tid _ => ?_
          rw [Nat.zero_mul, Nat.zero_add]
      _ = ∑ j ∈ Finset.range group_size,
            group_temperature_contrib pdata d_group_members group_size j := by
          refine (Finset.sum_subset (Finset.range_subset.mpr hgs) ?_).symm
          intro x _ hxn
          rw [Finset.mem_range] at hxn
          simp [group_temperature_contrib, hxn]
      _ = _ := by
          refine Finset.sum_congr rfl fun j hj => ?_
          rw [Finset.mem_range] at hj
          simp [group_temperature_contrib, hj]

/-- Claim C4 witness: with block size 4 = 2^2, one block, a group of 3
members each of mass 2 and speed-squared 3, the partial 2K slot is 18; over
all 4 particles the pressure kernel's 2K slot is 24 and, with per-particle
virial 5, its W slot is 20. -/
theorem C4_reduction_partial_sums_witness :
    gpu_npt_group_temperature_kernel (fun _ => 0) pdata0 members0 3 4 1 0 = 18
    ∧ (gpu_npt_pressure_kernel2 (fun _ => 0) (fun _ => 0) pdata0
        (fun _ => 5) 4 1).1 0 = 24
    ∧ (gpu_npt_pressure_kernel2 (fun _ => 0) (fun _ => 0) pdata0
        (fun _ => 5) 4 1).2 0 = 20 := by
  have h := C4_reduction_partial_sums (fun _ => 0) (fun _ => 0) (fun _ => 0)
    pdata0 members0 (fun _ => 5) 3 4 1 2 0 rfl (by decide)
  refine ⟨?_, ?_, ?_⟩
  · rw [h.1]
    norm_num [Finset.sum_range_succ, group_temperature_contrib, pdata0, members0]
  · rw [h.2.1]
    norm_num [Finset.sum_range_succ, pressure_2K_contrib, pdata0]
  · rw [h.2.2.1]
    norm_num [Finset.sum_range_succ, pressure_virial_contrib, pdata0]

/-- A CudaEnv whose binds succeed but whose launch reports a configuration
failure, with checking disabled. -/
def envLaunchFail : CudaEnv :=
  { bindPos := cudaError.success, bindVel := cudaError.success
    bindAccel := cudaError.success, bindMass := cudaError.success
    bindImage := cudaError.success, bindNetForce := cudaError.success
    launchResult := cudaError.invalidConfiguration
    asyncResult := cudaError.success
    g_gpu_error_checking := false }

/-- A CudaEnv with checking enabled and a deferred asynchronous fault. -/
def envChecked : CudaEnv :=
  { bindPos := cudaError.success, bindVel := cudaError.success
    bindAccel := cudaError.success, bindMass := cudaError.success
    bindImage := cudaError.success, bindNetForce := cudaError.success
    launchResult := cudaError.success
    asyncResult := cudaError.launchFailure
    g_gpu_error_checking := true }

/-- A CudaEnv in which every texture bind fails. -/
def envBindsFail : CudaEnv :=
  { bindPos := cudaError.invalidTexture, bindVel := cudaError.invalidTexture
    bindAccel := cudaError.invalidTexture, bindMass := cudaError.invalidTexture
    bindImage := cudaError.invalidTexture, bindNetForce := cudaError.invalidTexture
    launchResult := cudaError.success, asyncResult := cudaError.success
    g_gpu_error_checking := false }

/-- Claim C5 counterexample: with checked execution disabled and the launch
call itself reporting a configuration failure, the step-one driver still
returns cudaSuccess - the drivers return cudaSuccess unconditionally in
unchecked mode, so a configuration failure is not reported, contrary to the
claim. -/
theorem C5_counterexample :
    envLaunchFail.g_gpu_error_checking = false
    ∧ envLaunchFail.launchResult = cudaError.invalidConfiguration
    ∧ (gpu_npt_step_one expf2 envLaunchFail pdata0 members0 1 1 1 0 0 1).status
        = cudaError.success := by
  exact ⟨rfl, rfl, rfl⟩

/-- Claim C5 (amended): once its texture binds succeed, every driver returns
cudaSuccess unconditionally when checking is disabled - even a
launch-configuration failure goes unreported - and, when checking is enabled,
blocks and returns the post-synchronize sticky error: the
launch-configuration failure if there was one, else the deferred
asynchronous fault. -/
theorem C5_error_mode (expf : ℚ → ℚ) (env : CudaEnv) (pdata : gpu_pdata_arrays)
    (d_group_members : ℕ → ℕ) (d_net_force : ℕ → float4)
    (d_net_virial d_partial_sum2K d_partial_sumW d_group_sum : ℕ → ℚ)
    (box : gpu_boxsize) (group_size block_size num_blocks : ℕ)
    (Xi Eta deltaT : ℚ)
    (hbp : env.bindPos = cudaError.success)
    (hbv : env.bindVel = cudaError.success)
    (hba : env.bindAccel = cudaError.success)
    (hbm : env.bindMass = cudaError.success)
    (hbi : env.bindImage = cudaError.success)
    (hbn : env.bindNetForce = cudaError.success) :
    (gpu_npt_step_one expf env pdata d_group_members group_size block_size
        num_blocks Xi Eta deltaT).status
      = (if env.g_gpu_error_checking then env.postSyncError else cudaError.success)
    ∧ (gpu_npt_boxscale expf env pdata box block_size Eta deltaT).status
      = (if env.g_gpu_error_checking then env.postSyncError else cudaError.success)
    ∧ (gpu_npt_step_two expf env pdata d_group_members group_size d_net_force
        block_size num_blocks Xi Eta deltaT).status
      = (if env.g_gpu_error_checking then env.postSyncError else cudaError.success)
    ∧ (gpu_npt_group_temperature env d_group_sum pdata d_group_members
        group_size block_size num_blocks).status
      = (if env.g_gpu_error_checking then env.postSyncError else cudaError.success)
    ∧ (gpu_npt_pressure2 env d_partial_sum2K d_partial_sumW pdata d_net_virial
        block_size num_blocks).status
      = (if env.g_gpu_error_checking then env.postSyncError else cudaError.success) := by
  refine ⟨?_, ?_, ?_, ?_, ?_⟩
  · unfold gpu_npt_step_one
    rw [hbp, hbv, hba]
    simp [launchEpilogue_status]
  · unfold gpu_npt_boxscale
    rw [hbp, hbi]
    simp [launchEpilogue_status]
  · unfold gpu_npt_step_two
    rw [hbv, hbm, hbn]
    simp [launchEpilogue_status]
  · unfold gpu_npt_group_temperature
    rw [hbv, hbm]
    simp [launchEpilogue_status]
  · unfold gpu_npt_pressure2
    simp [launchEpilogue_status]

/-- Claim C5 witness: with checking enabled and a deferred fault the pressure
driver returns that fault; with checking disabled the step-one driver
returns success. -/
theorem C5_error_mode_witness :
    (gpu_npt_pressure2 envChecked (fun _ => 0) (fun _ => 0) pdata0
        (fun _ => 0) 2 1).status = cudaError.launchFailure
    ∧ (gpu_npt_step_one expf2 env0 pdata0 members0 1 1 1 0 0 1).status
        = cudaError.success := by
  have h1 := C5_error_mode expf2 envChecked pdata0 members0
    (fun _ => ⟨0, 0, 0, 0⟩) (fun _ => 0) (fun _ => 0) (fun _ => 0)
    (fun _ => 0) box0 1 2 1 0 0 1 rfl rfl rfl rfl rfl rfl
  have h2 := C5_error_mode expf2 env0 pdata0 members0
    (fun _ => ⟨0, 0, 0, 0⟩) (fun _ => 0) (fun _ => 0) (fun _ => 0)
    (fun _ => 0) box0 1 1 1 0 0 1 rfl rfl rfl rfl rfl rfl
  exact ⟨h1.2.2.2.2.trans (by decide), h2.1.trans (by decide)⟩

/-- Claim C6 counterexample: in an environment in which every possible
texture bind fails, gpu_npt_pressure2 still reaches its kernel launch and
returns cudaSuccess: the fifth driver binds no read-only views at all, so it
never returns a binding error before launching, contrary to the claim that
every one of the five drivers does. -/
theorem C6_counterexample :
    (envBindsFail.bindPos ≠ cudaError.success
      ∧ envBindsFail.bindVel ≠ cudaError.success
      ∧ envBindsFail.bindAccel ≠ cudaError.success
      ∧ envBindsFail.bindMass ≠ cudaError.success
      ∧ envBindsFail.bindImage ≠ cudaError.success
      ∧ envBindsFail.bindNetForce ≠ cudaError.success)
    ∧ (gpu_npt_pressure2 envBindsFail (fun _ => 0) (fun _ => 0) pdata0
        (fun _ => 0) 2 1).launched = true
    ∧ (gpu_npt_pressure2 envBindsFail (fun _ => 0) (fun _ => 0) pdata0
        (fun _ => 0) 2 1).status = cudaError.success := by
  exact ⟨⟨by decide, by decide, by decide, by decide, by decide, by decide⟩,
    rfl, rfl⟩


/-- A CudaEnv in which only the accel bind (checked third by step one)
fails. -/
def envAccelFail : CudaEnv :=
  { bindPos := cudaError.success, bindVel := cudaError.success
    bindAccel := cudaError.invalidTexture, bindMass := cudaError.success
    bindImage := cudaError.success, bindNetForce := cudaError.success
    launchResult := cudaError.success, asyncResult := cudaError.success
    g_gpu_error_checking := false }

/-- A CudaEnv in which only the image bind (checked second by boxscale)
fails. -/
def envImageFail : CudaEnv :=
  { bindPos := cudaError.success, bindVel := cudaError.success
    bindAccel := cudaError.success, bindMass := cudaError.success
    bindImage := cudaError.invalidTexture, bindNetForce := cudaError.success
    launchResult := cudaError.success, asyncResult := cudaError.success
    g_gpu_error_checking := false }

/-- A CudaEnv in which only the mass bind (checked second by the group
temperature driver) fails. -/
def envMassFail : CudaEnv :=
  { bindPos := cudaError.success, bindVel := cudaError.success
    bindAccel := cudaError.success, bindMass := cudaError.invalidTexture
    bindImage := cudaError.success, bindNetForce := cudaError.success
    launchResult := cudaError.success, asyncResult := cudaError.success
    g_gpu_error_checking := false }

/-- A CudaEnv in which only the net-force bind (checked third by step two)
fails. -/
def envNetForceFail : CudaEnv :=
  { bindPos := cudaError.success, bindVel := cudaError.success
    bindAccel := cudaError.success, bindMass := cudaError.success
    bindImage := cudaError.success, bindNetForce := cudaError.invalidTexture
    launchResult := cudaError.success, asyncResult := cudaError.success
    g_gpu_error_checking := false }

/-- Claim C6 (amended): four of the five drivers (step one, boxscale, step
two, group temperature) bind read-only cached views before launching, and if
any of their binds fails they return the first failing bind's error in the
order the source checks them, with the kernel not launched and state
unchanged - one conjunct per bind of each chain: pos/vel/accel for step one,
pos/image for boxscale, vel/mass/netForce for step two, vel/mass for group
temperature - while gpu_npt_pressure2 binds nothing and always reaches its
launch. -/
theorem C6_bind_gate (expf : ℚ → ℚ) (env : CudaEnv) (pdata : gpu_pdata_arrays)
    (d_group_members : ℕ → ℕ) (d_net_force : ℕ → float4)
    (d_net_virial d_partial_sum2K d_partial_sumW d_group_sum : ℕ → ℚ)
    (box : gpu_boxsize) (group_size block_size num_blocks : ℕ)
    (Xi Eta deltaT : ℚ) (e : cudaError)
    (he : e ≠ cudaError.success) :
    (env.bindPos = e →
      gpu_npt_step_one expf env pdata d_group_members group_size block_size
        num_blocks Xi Eta deltaT = ⟨e, false, pdata⟩)
    ∧ (env.bindPos = cudaError.success → env.bindVel = e →
      gpu_npt_step_one expf env pdata d_group_members group_size block_size
        num_blocks Xi Eta deltaT = ⟨e, false, pdata⟩)
    ∧ (env.bindPos = cudaError.success → env.bindVel = cudaError.success →
       env.bindAccel = e →
      gpu_npt_step_one expf env pdata d_group_members group_size block_size
        num_blocks Xi Eta deltaT = ⟨e, false, pdata⟩)
    ∧ (env.bindPos = e →
      gpu_npt_boxscale expf env pdata box block_size Eta deltaT
        = ⟨e, false, pdata⟩)
    ∧ (env.bindPos = cudaError.success → env.bindImage = e →
      gpu_npt_boxscale expf env pdata box block_size Eta deltaT
        = ⟨e, false, pdata⟩)
    ∧ (env.bindVel = e →
      gpu_npt_step_two expf env pdata d_group_members group_size d_net_force
        block_size num_blocks Xi Eta deltaT = ⟨e, false, pdata⟩)
    ∧ (env.bindVel = cudaError.success → env.bindMass = e →
      gpu_npt_step_two expf env pdata d_group_members group_size d_net_force
        block_size num_blocks Xi Eta deltaT = ⟨e, false, pdata⟩)
    ∧ (env.bindVel = cudaError.success → env.bindMass = cudaError.success →
       env.bindNetForce = e →
      gpu_npt_step_two expf env pdata d_group_members group_size d_net_force
        block_size num_blocks Xi Eta deltaT = ⟨e, false, pdata⟩)
    ∧ (env.bindVel = e →
      gpu_npt_group_temperature env d_group_sum pdata d_group_members
        group_size block_size num_blocks = ⟨e, false, d_group_sum⟩)
    ∧ (env.bindVel = cudaError.success → env.bindMass = e →
      gpu_npt_group_temperature env d_group_sum pdata d_group_members
        group_size block_size num_blocks = ⟨e, false, d_group_sum⟩)
    ∧ (gpu_npt_pressure2 env d_partial_sum2K d_partial_sumW pdata d_net_virial
        block_size num_blocks).launched = true := by
  refine ⟨?_, ?_, ?_, ?_, ?_, ?_, ?_, ?_, ?_, ?_, ?_⟩
  · intro hp
    unfold gpu_npt_step_one
    rw [hp]
    simp [he]
  · intro hp hv
    unfold gpu_npt_step_one
    rw [hp, hv]
    simp [he]
  · intro hp hv ha
    unfold gpu_npt_step_one
    rw [hp, hv, ha]
    simp [he]
  · intro hp
    unfold gpu_npt_boxscale
    rw [hp]
    simp [he]
  · intro hp hi
    unfold gpu_npt_boxscale
    rw [hp, hi]
    simp [he]
  · intro hv
    unfold gpu_npt_step_two
    rw [hv]
    simp [he]
  · intro hv hm
    unfold gpu_npt_step_two
    rw [hv, hm]
    simp [he]
  · intro hv hm hn
    unfold gpu_npt_step_two
    rw [hv, hm, hn]
    simp [he]
  · intro hv
    unfold gpu_npt_group_temperature
    rw [hv]
    simp [he]
  · intro hv hm
    unfold gpu_npt_group_temperature
    rw [hv, hm]
    simp [he]
  · unfold gpu_npt_pressure2
    exact launchEpilogue_launched env _ _

/-- Claim C6 witness: the bind-gate theorem exercised on one environment per
later-bind failure: step one aborts on its third (accel) bind, boxscale on
its second (image) bind, step two on its third (net-force) bind, group
temperature on its second (mass) bind, step one also aborts on a first-bind
failure, and the pressure driver launches even with every bind failing. -/
theorem C6_bind_gate_witness :
    gpu_npt_step_one expf2 envAccelFail pdata0 members0 1 1 1 0 0 1
      = ⟨cudaError.invalidTexture, false, pdata0⟩
    ∧ gpu_npt_boxscale expf2 envImageFail pdata0 box0 1 0 1
      = ⟨cudaError.invalidTexture, false, pdata0⟩
    ∧ gpu_npt_step_two expf2 envNetForceFail pdata0 members0 1
        (fun _ => ⟨0, 0, 0, 0⟩) 1 1 0 0 1
      = ⟨cudaError.invalidTexture, false, pdata0⟩
    ∧ gpu_npt_group_temperature envMassFail (fun _ => 0) pdata0 members0 1 1 1
      = ⟨cudaError.invalidTexture, false, fun _ => 0⟩
    ∧ gpu_npt_step_one expf2 envBindsFail pdata0 members0 1 1 1 0 0 1
      = ⟨cudaError.invalidTexture, false, pdata0⟩
    ∧ (gpu_npt_pressure2 envBindsFail (fun _ => 0) (fun _ => 0) pdata0
        (fun _ => 0) 1 1).launched = true := by
  have hA := C6_bind_gate expf2 envAccelFail pdata0 members0
    (fun _ => ⟨0, 0, 0, 0⟩) (fun _ => 0) (fun _ => 0) (fun _ => 0)
    (fun _ => 0) box0 1 1 1 0 0 1 cudaError.invalidTexture (by decide)
  have hI := C6_bind_gate expf2 envImageFail pdata0 members0
    (fun _ => ⟨0, 0, 0, 0⟩) (fun _ => 0) (fun _ => 0) (fun _ => 0)
    (fun _ => 0) box0 1 1 1 0 0 1 cudaError.invalidTexture (by decide)
  have hN := C6_bind_gate expf2 envNetForceFail pdata0 members0
    (fun _ => ⟨0, 0, 0, 0⟩) (fun _ => 0) (fun _ => 0) (fun _ => 0)
    (fun _ => 0) box0 1 1 1 0 0 1 cudaError.invalidTexture (by decide)
  have hM := C6_bind_gate expf2 envMassFail pdata0 members0
    (fun _ => ⟨0, 0, 0, 0⟩) (fun _ => 0) (fun _ => 0) (fun _ => 0)
    (fun _ => 0) box0 1 1 1 0 0 1 cudaError.invalidTexture (by decide)
  have hB := C6_bind_gate expf2 envBindsFail pdata0 members0
    (fun _ => ⟨0, 0, 0, 0⟩) (fun _ => 0) (fun _ => 0) (fun _ => 0)
    (fun _ => 0) box0 1 1 1 0 0 1 cudaError.invalidTexture (by decide)
  exact ⟨hA.2.2.1 rfl rfl rfl,
    hI.2.2.2.2.1 rfl rfl,
    hN.2.2.2.2.2.2.2.1 rfl rfl rfl,
    hM.2.2.2.2.2.2.2.2.2.1 rfl rfl,
    hB.1 rfl,
    hB.2.2.2.2.2.2.2.2.2.2⟩
